import Mathlib

/-
Verification of the VOICEVOX text-to-speech plugin (src/main.py).

The plugin is async Python glue around three remote HTTP endpoints.  We give a
shallow embedding: every handler becomes a pure Lean function over a World of
oracles (the HTTP responses the remote engine would return, the language
classifier, the temp-file name, the success of file removal).  Each function
returns the list of externally visible actions it performed (HTTP calls, temp
file writes, immediate or scheduled deletions) together with its result: the
yielded messages, the returned value, or a structured error.

Python exceptions are modelled by the VoxError type.  The ConnectionError
f-strings of _call_voicevox_api embed the HTTP status and the response body of
the failed call; we model them as structured constructors carrying exactly
those fields.  The ValueError messages of _get_speaker_id are likewise
modelled as structured constructors carrying the configured names.
-/

namespace Voicevox

/-- Component of an astrbot message chain: Plain text or a Record audio file. -/
inductive Component where
  | plain (text : String)
  | record (file : String)
  deriving DecidableEq, Repr

/-- Message yielded by a command handler: a plain text result or a chain result. -/
inductive Msg where
  | plain (s : String)
  | chainResult (chain : List Component)
  deriving DecidableEq, Repr

/-- The opaque JSON object returned by the audio_query endpoint. -/
abbrev Query := String

/-- Raw binary audio, as returned by the synthesis endpoint. -/
abbrev Bytes := List Nat

/-- Style object inside a speaker, per GET /speakers: a name and a numeric id. -/
structure Style where
  name : String
  id : Nat
  deriving DecidableEq, Repr

/-- Speaker object per GET /speakers: a name and nested styles. -/
structure Speaker where
  name : String
  styles : List Style
  deriving DecidableEq, Repr

instance : Inhabited Style := ⟨⟨"", 0⟩⟩
instance : Inhabited Speaker := ⟨⟨"", []⟩⟩

/-- Outcome of one HTTP request: a client-level failure (aiohttp.ClientError),
or a response carrying a status code, the text body, and the decoded payload
a 200 response would deliver. -/
inductive HttpResult (α : Type) where
  | clientError (msg : String)
  | response (status : Nat) (body : String) (value : α)
  deriving DecidableEq, Repr

/-- Externally visible actions of the plugin, in execution order. -/
inductive Action where
  | httpQuery (url : String) (text : String) (speaker : Nat)
  | httpSynthesis (url : String) (query : Query) (speaker : Nat)
  | httpSpeakers (url : String)
  | writeTemp (path : String) (data : Bytes)
  | removeNow (path : String)
  | scheduleRemoval (path : String) (delaySeconds : Nat)
  deriving DecidableEq, Repr

/-- Structured model of the exceptions raised in main.py.  queryFailed,
synthFailed, apiClientFailure, speakersFailed and speakersClientFailure model
ConnectionError (their Python messages embed exactly the recorded fields);
notConfigured, voiceNotFound and styleNotFound model ValueError. -/
inductive VoxError where
  | queryFailed (status : Nat) (body : String)
  | synthFailed (status : Nat) (body : String)
  | apiClientFailure (msg : String)
  | speakersFailed (status : Nat)
  | speakersClientFailure (msg : String)
  | notConfigured
  | voiceNotFound (voice : String)
  | styleNotFound (voice : String) (style : String)
  deriving DecidableEq, Repr

/-- The VoxError constructors that model Python ConnectionError. -/
def VoxError.isConnectionError : VoxError → Bool
  | .queryFailed _ _ => true
  | .synthFailed _ _ => true
  | .apiClientFailure _ => true
  | .speakersFailed _ => true
  | .speakersClientFailure _ => true
  | _ => false

/-- The VoxError constructors that model Python ValueError. -/
def VoxError.isValueError : VoxError → Bool
  | .notConfigured => true
  | .voiceNotFound _ => true
  | .styleNotFound _ _ => true
  | _ => false

/-- Plugin configuration (AstrBotConfig), with config.get defaults made
explicit as Option fields. -/
structure Config where
  voicevox_url : String
  default_voice : Option String := none
  default_style : Option String := none
  enable_voicevox : Option Bool := none
  max_length : Option Nat := none
  session_timeout_time : Option Nat := none
  deriving DecidableEq, Repr

/-- Oracles for everything outside the plugin: the remote engine responses,
the langid classifier, the temp-file name handed out by tempfile, and whether
removing a given path succeeds. -/
structure World where
  queryResp : String → Nat → HttpResult Query
  synthResp : Query → Nat → HttpResult Bytes
  speakersResp : HttpResult (List Speaker)
  classify : String → String × Int
  tempName : String
  removeOk : String → Bool

/-- Python truthiness of an optional string: None and the empty string are
falsy (the check "if not voice or not style" in _get_speaker_id). -/
def optFalsy : Option String → Bool
  | none => true
  | some s => s.isEmpty

/-- Embeds _is_japanese: a falsy text is never Japanese, otherwise the langid
classification must be the language code ja. -/
def isJapanese (classify : String → String × Int) (text : String) : Bool :=
  if text.isEmpty then false
  else (classify text).1 == "ja"

/-- Python truthiness of text.strip(): the stripped string is empty exactly
when every character of the text is whitespace. -/
def stripEmpty (s : String) : Bool :=
  s.toList.all Char.isWhitespace

/-- Embeds _validate_length: the text length is at most max_length, default 200. -/
def validateLength (cfg : Config) (s : String) : Bool :=
  s.length ≤ cfg.max_length.getD 200

/-- Embeds _call_voicevox_api: POST audio_query with text and speaker; on
status 200 take the JSON query object and POST it to synthesis with the
speaker; on status 200 return the raw bytes.  A non-200 status raises
ConnectionError with the status and body; an aiohttp.ClientError at either
call raises ConnectionError with its message.  The first component records
the HTTP calls actually made, in order. -/
def callVoicevoxApi (w : World) (cfg : Config) (text : String) (speaker : Nat) :
    List Action × Except VoxError Bytes :=
  let url := cfg.voicevox_url
  match w.queryResp text speaker with
  | .clientError msg =>
      ([.httpQuery url text speaker], .error (.apiClientFailure msg))
  | .response st body q =>
      if st == 200 then
        match w.synthResp q speaker with
        | .clientError msg =>
            ([.httpQuery url text speaker, .httpSynthesis url q speaker],
             .error (.apiClientFailure msg))
        | .response st2 body2 audio =>
            if st2 == 200 then
              ([.httpQuery url text speaker, .httpSynthesis url q speaker],
               .ok audio)
            else
              ([.httpQuery url text speaker, .httpSynthesis url q speaker],
               .error (.synthFailed st2 body2))
      else
        ([.httpQuery url text speaker], .error (.queryFailed st body))

/-- Embeds _list_speakers: GET /speakers; non-200 raises ConnectionError with
the status, a client error raises ConnectionError with its message. -/
def listSpeakers (w : World) (cfg : Config) :
    List Action × Except VoxError (List Speaker) :=
  let url := cfg.voicevox_url
  match w.speakersResp with
  | .clientError msg => ([.httpSpeakers url], .error (.speakersClientFailure msg))
  | .response st _body speakers =>
      if st == 200 then ([.httpSpeakers url], .ok speakers)
      else ([.httpSpeakers url], .error (.speakersFailed st))

/-- Embeds _get_speaker_id: ValueError if the configured voice or style is
unset (falsy); otherwise fetch the speakers, take the first speaker whose name
equals the configured voice (ValueError if none), then the first of its styles
whose name equals the configured style (ValueError if none), and return that
style's numeric id. -/
def getSpeakerId (w : World) (cfg : Config) :
    List Action × Except VoxError Nat :=
  if optFalsy cfg.default_voice || optFalsy cfg.default_style then
    ([], .error .notConfigured)
  else
    let voice := cfg.default_voice.getD ""
    let style := cfg.default_style.getD ""
    match listSpeakers w cfg with
    | (tr, .error e) => (tr, .error e)
    | (tr, .ok speakers) =>
        match speakers.find? (fun s => s.name == voice) with
        | none => (tr, .error (.voiceNotFound voice))
        | some speaker =>
            match speaker.styles.find? (fun st => st.name == style) with
            | none => (tr, .error (.styleNotFound voice style))
            | some styleObj => (tr, .ok styleObj.id)

/-- Fixed user-facing message texts of main.py. -/
def msgEmptyText : String := "❌ 生成语音失败：文本内容不能为空！"

/-- Warning yielded when the text is not classified as Japanese. -/
def msgNotJapanese : String := "⚠️ VOICEVOX 只支持日语文本转语音，请提供日语文本。"

/-- Warning yielded when the text exceeds the maximum length. -/
def msgTooLong : String := "⚠️ 输入文本超过最大文本长度。"

/-- Error yielded by the gen handler's exception handler. -/
def msgGenFailed : String := "❌ 语音生成失败，请检查日志"

/-- Error yielded by set_voice on an out-of-range index. -/
def msgBadVoiceIndex : String := "❌ 无效的音声索引，请先使用 /speakers voice list 查看音声列表"

/-- Error yielded by set_voice's exception handler. -/
def msgSetVoiceFailed : String := "❌ 设置音声失败，请检查日志"

/-- Error yielded by set_style when no default voice is configured. -/
def msgSetStyleNoVoice : String := "❌ 请先设置音声！使用 /voicevox set_voice <音声索引>"

/-- Error yielded by set_style when the configured voice is not found. -/
def msgSetStyleVoiceMissing (voiceName : String) : String :=
  "❌ 找不到音声 " ++ voiceName ++ "，请重新设置！"

/-- Error yielded by set_style on an out-of-range index. -/
def msgBadStyleIndex : String := "❌ 无效的风格索引，请使用 /voicevox list_styles 查看当前音声的风格"

/-- Error yielded by set_style's exception handler. -/
def msgSetStyleFailed : String := "❌ 设置风格失败，请检查日志"

/-- Embeds the gen command handler generate_speech.  The whole body sits in a
try/except, so the function is total and every failure of the pipeline is
converted into the plain message msgGenFailed.  On success the audio is
written to a temp file, the chain result with the Record is yielded, and the
file is removed immediately with os.remove; a removal failure raises inside
the try block and is converted into an additional plain error message. -/
def generateSpeech (w : World) (cfg : Config) (text : String) :
    List Action × List Msg :=
  if stripEmpty text then
    ([], [.plain msgEmptyText])
  else if ¬ isJapanese w.classify text then
    ([], [.plain msgNotJapanese])
  else if ¬ validateLength cfg text then
    ([], [.plain msgTooLong])
  else
    match getSpeakerId w cfg with
    | (tr, .error _) => (tr, [.plain msgGenFailed])
    | (tr, .ok sp) =>
        match callVoicevoxApi w cfg text sp with
        | (tr2, .error _) => (tr ++ tr2, [.plain msgGenFailed])
        | (tr2, .ok audio) =>
            let path := w.tempName
            let trace := tr ++ tr2 ++ [.writeTemp path audio, .removeNow path]
            if w.removeOk path then
              (trace, [.chainResult [.record path]])
            else
              (trace, [.chainResult [.record path], .plain msgGenFailed])

/-- The result object the decoration hook inspects: the component chain and
whether it is an LLM result. -/
structure ResultObj where
  chain : List Component
  is_llm : Bool
  deriving DecidableEq, Repr

/-- Embeds the component loop of on_decorating_result: concatenate the text of
the Plain components, bailing out (none) as soon as a non-Plain component is
seen. -/
def concatPlain : List Component → Option String
  | [] => some ""
  | .plain t :: rest => (concatPlain rest).map (fun r => t ++ r)
  | .record _ :: _ => none

/-- Embeds the decoration hook on_decorating_result.  It returns early (result
unchanged) unless the enable flag (default true) is on, the result exists and
is an LLM result, every component is Plain, and the concatenated text passes
the Japanese and length checks.  The speaker lookup and the two API calls sit
in a try/except whose handler only logs, so any failure leaves the result
unchanged; on success the whole chain is replaced by a single Record and the
temp file's removal is scheduled in a background task with a 10 second
delay. -/
def onDecoratingResult (w : World) (cfg : Config) (result : Option ResultObj) :
    List Action × Option ResultObj :=
  if ¬ cfg.enable_voicevox.getD true then
    ([], result)
  else
    match result with
    | none => ([], none)
    | some res =>
        if ¬ res.is_llm then ([], some res)
        else
          match concatPlain res.chain with
          | none => ([], some res)
          | some plainText =>
              if ¬ isJapanese w.classify plainText then ([], some res)
              else if ¬ validateLength cfg plainText then ([], some res)
              else
                match getSpeakerId w cfg with
                | (tr, .error _) => (tr, some res)
                | (tr, .ok sp) =>
                    match callVoicevoxApi w cfg plainText sp with
                    | (tr2, .error _) => (tr ++ tr2, some res)
                    | (tr2, .ok audio) =>
                        let path := w.tempName
                        (tr ++ tr2 ++
                           [.writeTemp path audio, .scheduleRemoval path 10],
                         some { res with chain := [.record path] })

/-- Embeds the set_voice command handler: fetch the speakers (any exception,
including the ConnectionError of the fetch, is caught and leaves the config
unchanged), convert the 1-based index, reject it if out of range, otherwise
store the selected speaker's name as default_voice. -/
def setVoice (w : World) (cfg : Config) (voiceIndex : Int) :
    Config × List Msg :=
  match listSpeakers w cfg with
  | (_, .error _) => (cfg, [.plain msgSetVoiceFailed])
  | (_, .ok speakers) =>
      let index := voiceIndex - 1
      if index < 0 ∨ (speakers.length : Int) ≤ index then
        (cfg, [.plain msgBadVoiceIndex])
      else
        let selected := (speakers.getD index.toNat default).name
        ({ cfg with default_voice := some selected },
         [.plain ("✅ 默认音声已设置为: " ++ selected)])

/-- Embeds the set_style command handler: require a configured default voice
(the Python check is voice_name is None, so only an absent key bails out
here), fetch the speakers, find the configured voice, convert the 1-based
index, reject it if out of range of that speaker's styles, otherwise store the
selected style's name as default_style.  Any exception is caught and leaves
the config unchanged. -/
def setStyle (w : World) (cfg : Config) (styleIndex : Int) :
    Config × List Msg :=
  match cfg.default_voice with
  | none => (cfg, [.plain msgSetStyleNoVoice])
  | some voiceName =>
      match listSpeakers w cfg with
      | (_, .error _) => (cfg, [.plain msgSetStyleFailed])
      | (_, .ok speakers) =>
          match speakers.find? (fun s => s.name == voiceName) with
          | none => (cfg, [.plain (msgSetStyleVoiceMissing voiceName)])
          | some speaker =>
              let styles := speaker.styles
              let index := styleIndex - 1
              if index < 0 ∨ (styles.length : Int) ≤ index then
                (cfg, [.plain msgBadStyleIndex])
              else
                let selected := (styles.getD index.toNat default).name
                ({ cfg with default_style := some selected },
                 [.plain ("✅ 默认风格已设置为: " ++ selected)])

/-- Model of an aiohttp.ClientSession: an identity, the closed flag, and the
timeout it was created with. -/
structure Session where
  sid : Nat
  closed : Bool
  timeout : Nat
  deriving DecidableEq, Repr

/-- The session ensure_session would newly create: open, with the configured
timeout (default 120) and a fresh identity. -/
def newSession (cfg : Config) (freshId : Nat) : Session :=
  { sid := freshId, closed := false,
    timeout := cfg.session_timeout_time.getD 120 }

/-- Embeds ensure_session: replace the stored session by a newly created one
exactly when none is stored or the stored one is closed; otherwise keep the
stored session object untouched. -/
def ensureSession (cfg : Config) (session : Option Session) (freshId : Nat) :
    Option Session :=
  match session with
  | none => some (newSession cfg freshId)
  | some s => if s.closed then some (newSession cfg freshId) else some s

/-- Classifier for scheduleRemoval actions, used to state deletion claims. -/
def Action.isSchedule : Action → Bool
  | .scheduleRemoval _ _ => true
  | _ => false

/-- Classifier for removeNow actions. -/
def Action.isRemoveNow : Action → Bool
  | .removeNow _ => true
  | _ => false

/-- Classifier for audio_query calls. -/
def Action.isQuery : Action → Bool
  | .httpQuery _ _ _ => true
  | _ => false

/-- Classifier for synthesis calls. -/
def Action.isSynthesis : Action → Bool
  | .httpSynthesis _ _ _ => true
  | _ => false

/-- Classifier for speakers fetches. -/
def Action.isSpeakersFetch : Action → Bool
  | .httpSpeakers _ => true
  | _ => false

/-- Specification predicate: the speaker lookup and the two API calls all
succeed for the given text. -/
def pipelineOk (w : World) (cfg : Config) (text : String) : Bool :=
  match (getSpeakerId w cfg).2 with
  | .error _ => false
  | .ok sp =>
      match (callVoicevoxApi w cfg text sp).2 with
      | .error _ => false
      | .ok _ => true

/-- Specification predicate: all conditions under which the decoration hook
replaces the chain of a present result object. -/
def decorationFires (w : World) (cfg : Config) (res : ResultObj) : Bool :=
  cfg.enable_voicevox.getD true && res.is_llm &&
    (match concatPlain res.chain with
     | none => false
     | some t => isJapanese w.classify t && validateLength cfg t &&
         pipelineOk w cfg t)

/-- Specification predicate: all conditions under which the gen handler
reaches synthesis and succeeds. -/
def genFires (w : World) (cfg : Config) (text : String) : Bool :=
  !(stripEmpty text) && isJapanese w.classify text &&
    validateLength cfg text && pipelineOk w cfg text

/-- Concrete speakers list used as a fixture in witnesses. -/
def sampleSpeakers : List Speaker :=
  [⟨"四国めたん", [⟨"あまあま", 0⟩, ⟨"ノーマル", 2⟩]⟩,
   ⟨"ずんだもん", [⟨"ノーマル", 3⟩, ⟨"あまあま", 1⟩]⟩]

/-- Fixture world in which every remote call succeeds. -/
def wOk : World :=
  { queryResp := fun _ _ => .response 200 "" "accentPhrases"
    synthResp := fun _ _ => .response 200 "" [82, 73, 70, 70]
    speakersResp := .response 200 "" sampleSpeakers
    classify := fun _ => ("ja", -43)
    tempName := "/tmp/tts.wav"
    removeOk := fun _ => true }

/-- Fixture world in which the audio_query call answers 422. -/
def wQueryFail : World :=
  { wOk with queryResp := fun _ _ => .response 422 "invalid mora" "ignored" }

/-- Fixture configuration with voice and style set. -/
def cfgOk : Config :=
  { voicevox_url := "http://localhost:50021"
    default_voice := some "ずんだもん"
    default_style := some "ノーマル" }

/-- C1: for every text and speaker id, _call_voicevox_api performs exactly one
POST to audio_query with the text and speaker first and, exactly when that
call returns status 200, exactly one POST to synthesis carrying the returned
query object and the speaker; on a failed audio_query (non-200 or client
error) the synthesis call is never attempted, no call is retried, and on
double success the raw bytes of the synthesis response are returned. -/
theorem audio_pipeline_two_calls (w : World) (cfg : Config) (text : String)
    (sp : Nat) :
    (∀ body q, w.queryResp text sp = .response 200 body q →
        (callVoicevoxApi w cfg text sp).1 =
          [.httpQuery cfg.voicevox_url text sp,
           .httpSynthesis cfg.voicevox_url q sp]) ∧
    (∀ st body q, w.queryResp text sp = .response st body q → st ≠ 200 →
        (callVoicevoxApi w cfg text sp).1 =
          [.httpQuery cfg.voicevox_url text sp]) ∧
    (∀ msg, w.queryResp text sp = .clientError msg →
        (callVoicevoxApi w cfg text sp).1 =
          [.httpQuery cfg.voicevox_url text sp]) ∧
    (∀ body q body2 audio, w.queryResp text sp = .response 200 body q →
        w.synthResp q sp = .response 200 body2 audio →
        (callVoicevoxApi w cfg text sp).2 = .ok audio) := by
  refine ⟨?_, ?_, ?_, ?_⟩
  · intro body q hq
    cases hs : w.synthResp q sp <;> simp [callVoicevoxApi, hq, hs]
    split <;> rfl
  · intro st body q hq hst
    simp [callVoicevoxApi, hq, hst]
  · intro msg hq
    simp [callVoicevoxApi, hq]
  · intro body q body2 audio hq hs
    simp [callVoicevoxApi, hq, hs]

/-- Witness for C1 at a concrete world: both calls succeed, the trace is the
query then the synthesis call, and the bytes are returned. -/
theorem audio_pipeline_two_calls_witness :
    (callVoicevoxApi wOk cfgOk "こんにちは" 3).1 =
      [.httpQuery "http://localhost:50021" "こんにちは" 3,
       .httpSynthesis "http://localhost:50021" "accentPhrases" 3] ∧
    (callVoicevoxApi wOk cfgOk "こんにちは" 3).2 = .ok [82, 73, 70, 70] :=
  ⟨(audio_pipeline_two_calls wOk cfgOk "こんにちは" 3).1 "" "accentPhrases" rfl,
   (audio_pipeline_two_calls wOk cfgOk "こんにちは" 3).2.2.2 ""
     "accentPhrases" "" [82, 73, 70, 70] rfl rfl⟩

/-- C2: _call_voicevox_api raises ConnectionError exactly on a non-200 status
of either call or a client failure of either call; the non-200 errors carry
the status code and the body of the failed call, and on status 200 for both
calls the audio bytes are returned; moreover every error it can return models
a Python ConnectionError. -/
theorem api_error_iff_failure (w : World) (cfg : Config) (text : String)
    (sp : Nat) :
    (∀ st body q, w.queryResp text sp = .response st body q → st ≠ 200 →
        (callVoicevoxApi w cfg text sp).2 = .error (.queryFailed st body)) ∧
    (∀ msg, w.queryResp text sp = .clientError msg →
        (callVoicevoxApi w cfg text sp).2 = .error (.apiClientFailure msg)) ∧
    (∀ body q st2 body2 audio, w.queryResp text sp = .response 200 body q →
        w.synthResp q sp = .response st2 body2 audio → st2 ≠ 200 →
        (callVoicevoxApi w cfg text sp).2 = .error (.synthFailed st2 body2)) ∧
    (∀ body q msg, w.queryResp text sp = .response 200 body q →
        w.synthResp q sp = .clientError msg →
        (callVoicevoxApi w cfg text sp).2 = .error (.apiClientFailure msg)) ∧
    (∀ body q body2 audio, w.queryResp text sp = .response 200 body q →
        w.synthResp q sp = .response 200 body2 audio →
        (callVoicevoxApi w cfg text sp).2 = .ok audio) ∧
    (∀ e, (callVoicevoxApi w cfg text sp).2 = .error e →
        e.isConnectionError = true) := by
  refine ⟨?_, ?_, ?_, ?_, ?_, ?_⟩
  · intro st body q hq hst
    simp [callVoicevoxApi, hq, hst]
  · intro msg hq
    simp [callVoicevoxApi, hq]
  · intro body q st2 body2 audio hq hs hst
    simp [callVoicevoxApi, hq, hs, hst]
  · intro body q msg hq hs
    simp [callVoicevoxApi, hq, hs]
  · intro body q body2 audio hq hs
    simp [callVoicevoxApi, hq, hs]
  · intro e he
    cases hq : w.queryResp text sp
    case clientError msg =>
      simp [callVoicevoxApi, hq] at he
      subst he
      rfl
    case response st body q =>
      simp [callVoicevoxApi, hq] at he
      split at he
      · cases hs : w.synthResp q sp
        case clientError msg =>
          rw [hs] at he
          simp at he
          subst he
          rfl
        case response st2 body2 audio =>
          rw [hs] at he
          simp at he
          split at he
          · simp at he
          · simp at he
            subst he
            rfl
      · simp at he
        subst he
        rfl

/-- Witness for C2 at a concrete world: an audio_query answering 422 yields a
ConnectionError carrying status 422 and the body. -/
theorem api_error_iff_failure_witness :
    (callVoicevoxApi wQueryFail cfgOk "こんにちは" 3).2 =
      .error (.queryFailed 422 "invalid mora") :=
  (api_error_iff_failure wQueryFail cfgOk "こんにちは" 3).1 422 "invalid mora"
    "ignored" rfl (by decide)

/-- The speakers fetch always performs exactly one GET /speakers call. -/
theorem listSpeakers_trace (w : World) (cfg : Config) :
    (listSpeakers w cfg).1 = [Action.httpSpeakers cfg.voicevox_url] := by
  unfold listSpeakers
  cases w.speakersResp with
  | clientError msg => rfl
  | response st body speakers =>
      dsimp only
      split <;> rfl

/-- The speaker resolution performs no HTTP call or exactly the speakers
fetch. -/
theorem getSpeakerId_trace (w : World) (cfg : Config) :
    (getSpeakerId w cfg).1 = [] ∨
    (getSpeakerId w cfg).1 = [Action.httpSpeakers cfg.voicevox_url] := by
  have hls := listSpeakers_trace w cfg
  unfold getSpeakerId
  split
  · exact Or.inl rfl
  · split
    · next tr e heq =>
        rw [heq] at hls
        right
        simpa using hls
    · next tr speakers heq =>
        rw [heq] at hls
        simp only at hls
        subst hls
        dsimp only
        split
        · right; rfl
        · split
          · right; rfl
          · right; rfl

/-- The API pipeline trace is always the query call possibly followed by one
synthesis call. -/
theorem callVoicevoxApi_trace (w : World) (cfg : Config) (text : String)
    (sp : Nat) :
    (callVoicevoxApi w cfg text sp).1 =
      [Action.httpQuery cfg.voicevox_url text sp] ∨
    ∃ q, (callVoicevoxApi w cfg text sp).1 =
      [Action.httpQuery cfg.voicevox_url text sp,
       Action.httpSynthesis cfg.voicevox_url q sp] := by
  unfold callVoicevoxApi
  cases w.queryResp text sp with
  | clientError msg => exact Or.inl rfl
  | response st body q =>
      dsimp only
      split
      · cases w.synthResp q sp with
        | clientError msg => exact Or.inr ⟨q, rfl⟩
        | response st2 body2 audio =>
            dsimp only
            split
            · exact Or.inr ⟨q, rfl⟩
            · exact Or.inr ⟨q, rfl⟩
      · exact Or.inl rfl

/-- C4: _get_speaker_id raises ValueError when voice or style is unset, looks
the rest up through GET /speakers, raises ValueError when no speaker carries
the configured voice name or that speaker has no style with the configured
style name, and otherwise returns the numeric id of the first matching style
of the first matching speaker. -/
theorem speaker_id_resolution (w : World) (cfg : Config) :
    ((optFalsy cfg.default_voice || optFalsy cfg.default_style) = true →
        getSpeakerId w cfg = ([], .error .notConfigured) ∧
        VoxError.notConfigured.isValueError = true) ∧
    (∀ body speakers, w.speakersResp = .response 200 body speakers →
      (optFalsy cfg.default_voice || optFalsy cfg.default_style) = false →
      (speakers.find? (fun s => s.name == cfg.default_voice.getD "") = none →
          getSpeakerId w cfg =
            ([.httpSpeakers cfg.voicevox_url],
             .error (.voiceNotFound (cfg.default_voice.getD ""))) ∧
          (VoxError.voiceNotFound (cfg.default_voice.getD "")).isValueError
            = true) ∧
      (∀ speaker,
        speakers.find? (fun s => s.name == cfg.default_voice.getD "")
            = some speaker →
        (speaker.styles.find? (fun st => st.name == cfg.default_style.getD "")
              = none →
            getSpeakerId w cfg =
              ([.httpSpeakers cfg.voicevox_url],
               .error (.styleNotFound (cfg.default_voice.getD "")
                 (cfg.default_style.getD ""))) ∧
            (VoxError.styleNotFound (cfg.default_voice.getD "")
               (cfg.default_style.getD "")).isValueError = true) ∧
        (∀ styleObj,
          speaker.styles.find?
              (fun st => st.name == cfg.default_style.getD "")
              = some styleObj →
          getSpeakerId w cfg =
            ([.httpSpeakers cfg.voicevox_url], .ok styleObj.id)))) := by
  constructor
  · intro hfalsy
    exact ⟨by simp [getSpeakerId, hfalsy], rfl⟩
  · intro body speakers hresp hset
    refine ⟨?_, ?_⟩
    · intro hfindv
      exact ⟨by simp [getSpeakerId, listSpeakers, hresp, hset, hfindv], rfl⟩
    · intro speaker hfindv
      refine ⟨?_, ?_⟩
      · intro hfinds
        exact ⟨by simp [getSpeakerId, listSpeakers, hresp, hset, hfindv,
          hfinds], rfl⟩
      · intro styleObj hfinds
        simp [getSpeakerId, listSpeakers, hresp, hset, hfindv, hfinds]

/-- Witness for C4 at a concrete world: the configured voice and style
resolve to style id 3. -/
theorem speaker_id_resolution_witness :
    getSpeakerId wOk cfgOk =
      ([.httpSpeakers "http://localhost:50021"], .ok 3) :=
  ((((speaker_id_resolution wOk cfgOk).2 "" sampleSpeakers rfl rfl).2
      ⟨"ずんだもん", [⟨"ノーマル", 3⟩, ⟨"あまあま", 1⟩]⟩ rfl).2
      ⟨"ノーマル", 3⟩ rfl)

/-- C8: ensure_session creates a new client session exactly when no session
exists or the existing one is closed, and otherwise leaves the stored session
object unchanged so it is reused. -/
theorem session_reuse (cfg : Config) (session : Option Session)
    (freshId : Nat) :
    (session = none →
        ensureSession cfg session freshId = some (newSession cfg freshId)) ∧
    (∀ s, session = some s → s.closed = true →
        ensureSession cfg session freshId = some (newSession cfg freshId)) ∧
    (∀ s, session = some s → s.closed = false →
        ensureSession cfg session freshId = some s) := by
  refine ⟨?_, ?_, ?_⟩
  · intro h
    simp [ensureSession, h]
  · intro s h hc
    simp [ensureSession, h, hc]
  · intro s h hc
    simp [ensureSession, h, hc]

/-- Witness for C8 at a concrete state: an open session is kept unchanged. -/
theorem session_reuse_witness :
    ensureSession cfgOk (some ⟨5, false, 120⟩) 9 = some ⟨5, false, 120⟩ :=
  (session_reuse cfgOk (some ⟨5, false, 120⟩) 9).2.2 ⟨5, false, 120⟩ rfl rfl

/-- Fixture world whose classifier answers English. -/
def wEn : World := { wOk with classify := fun _ => ("en", -20) }

/-- C7: in the gen handler the validation gate runs before any forwarding to
the external API: an empty or whitespace text, a text not classified as
Japanese, or a text over the maximum length each yield their warning message
with an empty action trace, so no HTTP call is performed at all. -/
theorem gen_validation_before_http (w : World) (cfg : Config)
    (text : String) :
    (stripEmpty text = true →
        generateSpeech w cfg text = ([], [.plain msgEmptyText])) ∧
    (stripEmpty text = false → isJapanese w.classify text = false →
        generateSpeech w cfg text = ([], [.plain msgNotJapanese])) ∧
    (stripEmpty text = false → isJapanese w.classify text = true →
        validateLength cfg text = false →
        generateSpeech w cfg text = ([], [.plain msgTooLong])) := by
  refine ⟨?_, ?_, ?_⟩
  · intro h
    simp [generateSpeech, h]
  · intro h hj
    simp [generateSpeech, h, hj]
  · intro h hj hl
    simp [generateSpeech, h, hj, hl]

/-- Witness for C7 at a concrete input: an English text is rejected with the
warning and an empty trace. -/
theorem gen_validation_before_http_witness :
    generateSpeech wEn cfgOk "hello" = ([], [.plain msgNotJapanese]) :=
  (gen_validation_before_http wEn cfgOk "hello").2.1 (by decide) rfl

/-- C3: the whole body of generate_speech sits in one try/except, so every
failure is converted into a yielded plain-text message and the handler is a
total function into message lists: the speaker-resolution and API failures
yield the fixed error message, a temp-file removal failure yields the audio
followed by the error message instead of propagating, at least one message is
always yielded, and no HTTP call is ever retried (each of the three call
kinds occurs at most once in the trace). -/
theorem gen_handler_catches_all_failures (w : World) (cfg : Config)
    (text : String) :
    (generateSpeech w cfg text).2 ≠ [] ∧
    (∀ tr e, stripEmpty text = false → isJapanese w.classify text = true →
        validateLength cfg text = true → getSpeakerId w cfg = (tr, .error e) →
        generateSpeech w cfg text = (tr, [.plain msgGenFailed])) ∧
    (∀ tr sp tr2 e, stripEmpty text = false →
        isJapanese w.classify text = true → validateLength cfg text = true →
        getSpeakerId w cfg = (tr, .ok sp) →
        callVoicevoxApi w cfg text sp = (tr2, .error e) →
        generateSpeech w cfg text = (tr ++ tr2, [.plain msgGenFailed])) ∧
    (∀ tr sp tr2 audio, stripEmpty text = false →
        isJapanese w.classify text = true → validateLength cfg text = true →
        getSpeakerId w cfg = (tr, .ok sp) →
        callVoicevoxApi w cfg text sp = (tr2, .ok audio) →
        w.removeOk w.tempName = false →
        generateSpeech w cfg text =
          (tr ++ tr2 ++ [.writeTemp w.tempName audio,
            .removeNow w.tempName],
           [.chainResult [.record w.tempName], .plain msgGenFailed])) ∧
    ((generateSpeech w cfg text).1.countP (fun a => a.isQuery) ≤ 1 ∧
     (generateSpeech w cfg text).1.countP (fun a => a.isSynthesis) ≤ 1 ∧
     (generateSpeech w cfg text).1.countP (fun a => a.isSpeakersFetch) ≤ 1) := by
  refine ⟨?_, ?_, ?_, ?_, ?_⟩
  · unfold generateSpeech
    split
    · simp
    · split
      · simp
      · split
        · simp
        · split
          · simp
          · split
            · simp
            · dsimp only
              split <;> simp
  · intro tr e h hj hl hsp
    simp [generateSpeech, h, hj, hl, hsp]
  · intro tr sp tr2 e h hj hl hsp hapi
    simp [generateSpeech, h, hj, hl, hsp, hapi]
  · intro tr sp tr2 audio h hj hl hsp hapi hrm
    simp [generateSpeech, h, hj, hl, hsp, hapi, hrm]
  · have htr1 := getSpeakerId_trace w cfg
    unfold generateSpeech
    split
    · simp
    · split
      · simp
      · split
        · simp
        · split
          · next tr e heq =>
              rw [heq] at htr1
              simp only at htr1
              rcases htr1 with h1 | h1 <;> subst h1 <;>
                simp [List.countP_cons, List.countP_nil, Action.isQuery,
                  Action.isSynthesis, Action.isSpeakersFetch]
          · next tr sp heq =>
              rw [heq] at htr1
              simp only at htr1
              have htr2 := callVoicevoxApi_trace w cfg text sp
              split
              · next tr2 e heq2 =>
                  rw [heq2] at htr2
                  simp only at htr2
                  rcases htr1 with h1 | h1 <;> subst h1 <;>
                    (rcases htr2 with h2 | ⟨q, h2⟩ <;> subst h2) <;>
                    simp [List.countP_cons, List.countP_nil, Action.isQuery,
                      Action.isSynthesis, Action.isSpeakersFetch]
              · next tr2 audio heq2 =>
                  rw [heq2] at htr2
                  simp only at htr2
                  rcases htr1 with h1 | h1 <;> subst h1 <;>
                    (rcases htr2 with h2 | ⟨q, h2⟩ <;> subst h2) <;>
                    (dsimp only
                     split <;>
                      simp [List.countP_cons, List.countP_nil, Action.isQuery,
                        Action.isSynthesis, Action.isSpeakersFetch])

/-- Witness for C3 at a concrete world: a failed audio_query is converted to
the fixed plain error message after the speakers fetch and the query call. -/
theorem gen_handler_catches_all_failures_witness :
    generateSpeech wQueryFail cfgOk "こんにちは" =
      ([.httpSpeakers "http://localhost:50021",
        .httpQuery "http://localhost:50021" "こんにちは" 3],
       [.plain msgGenFailed]) :=
  (gen_handler_catches_all_failures wQueryFail cfgOk "こんにちは").2.2.1
    [.httpSpeakers "http://localhost:50021"] 3
    [.httpQuery "http://localhost:50021" "こんにちは" 3]
    (.queryFailed 422 "invalid mora") (by decide) rfl rfl rfl rfl

/-- The speaker-resolution trace never contains an audio_query or synthesis
call. -/
theorem getSpeakerId_trace_no_api (w : World) (cfg : Config) :
    (∀ u t s, Action.httpQuery u t s ∉ (getSpeakerId w cfg).1) ∧
    (∀ u q s, Action.httpSynthesis u q s ∉ (getSpeakerId w cfg).1) := by
  rcases getSpeakerId_trace w cfg with h | h <;> rw [h] <;>
    exact ⟨fun u t s => by simp, fun u q s => by simp⟩

/-- Every audio_query or synthesis call in the API-pipeline trace carries the
speaker id the pipeline was invoked with. -/
theorem callVoicevoxApi_trace_speaker (w : World) (cfg : Config)
    (text : String) (sp : Nat) :
    (∀ u t s, Action.httpQuery u t s ∈ (callVoicevoxApi w cfg text sp).1 →
        s = sp) ∧
    (∀ u q s, Action.httpSynthesis u q s ∈ (callVoicevoxApi w cfg text sp).1 →
        s = sp) := by
  rcases callVoicevoxApi_trace w cfg text sp with h | ⟨q0, h⟩
  · constructor
    · intro u t s hmem
      rw [h] at hmem
      simp at hmem
      exact hmem.2.2
    · intro u q s hmem
      rw [h] at hmem
      simp at hmem
  · constructor
    · intro u t s hmem
      rw [h] at hmem
      simp at hmem
      exact hmem.2.2
    · intro u q s hmem
      rw [h] at hmem
      simp at hmem
      exact hmem.2.2

/-- Restatement of the previous lemma against an equation for the pipeline
result, convenient when the text is only available implicitly. -/
theorem api_trace_speaker_of_eq (w : World) (cfg : Config) (text : String)
    (sp : Nat) (tr2 : List Action) (r : Except VoxError Bytes)
    (heq : callVoicevoxApi w cfg text sp = (tr2, r)) :
    (∀ u t s, Action.httpQuery u t s ∈ tr2 → s = sp) ∧
    (∀ u q s, Action.httpSynthesis u q s ∈ tr2 → s = sp) := by
  have h := callVoicevoxApi_trace_speaker w cfg text sp
  rw [heq] at h
  exact h

/-- C5: in both execution paths that request synthesis — the gen command
handler and the decoration hook — every audio_query and every synthesis call
in the trace carries a speaker id that _get_speaker_id resolved successfully
beforehand; synthesis is never requested with an unresolved speaker id. -/
theorem speaker_resolved_before_synthesis (w : World) (cfg : Config)
    (text : String) (result : Option ResultObj) :
    (∀ u t s, Action.httpQuery u t s ∈ (generateSpeech w cfg text).1 →
        (getSpeakerId w cfg).2 = .ok s) ∧
    (∀ u q s, Action.httpSynthesis u q s ∈ (generateSpeech w cfg text).1 →
        (getSpeakerId w cfg).2 = .ok s) ∧
    (∀ u t s, Action.httpQuery u t s ∈ (onDecoratingResult w cfg result).1 →
        (getSpeakerId w cfg).2 = .ok s) ∧
    (∀ u q s, Action.httpSynthesis u q s ∈ (onDecoratingResult w cfg result).1 →
        (getSpeakerId w cfg).2 = .ok s) := by
  have hno := getSpeakerId_trace_no_api w cfg
  refine ⟨?_, ?_, ?_, ?_⟩
  · intro u t s
    unfold generateSpeech
    split
    · simp
    · split
      · simp
      · split
        · simp
        · split
          · next tr e heq =>
              intro hmem
              simp only at hmem
              exact absurd hmem (by
                have := (hno.1 u t s)
                rw [heq] at this
                exact this)
          · next tr sp heq =>
              have hsp := callVoicevoxApi_trace_speaker w cfg text sp
              split
              · next tr2 e heq2 =>
                  intro hmem
                  simp only [List.mem_append] at hmem
                  rcases hmem with hmem | hmem
                  · exact absurd hmem (by
                      have := (hno.1 u t s)
                      rw [heq] at this
                      exact this)
                  · have : s = sp := by
                      have h3 := hsp.1 u t s
                      rw [heq2] at h3
                      exact h3 hmem
                    subst this
                    rw [heq]
              · next tr2 audio heq2 =>
                  intro hmem
                  dsimp only at hmem
                  rw [apply_ite Prod.fst] at hmem
                  simp only [ite_self, List.mem_append] at hmem
                  rcases hmem with (hmem | hmem) | hmem
                  · exact absurd hmem (by
                      have := (hno.1 u t s)
                      rw [heq] at this
                      exact this)
                  · have : s = sp := by
                      have h3 := hsp.1 u t s
                      rw [heq2] at h3
                      exact h3 hmem
                    subst this
                    rw [heq]
                  · simp at hmem
  · intro u q s
    unfold generateSpeech
    split
    · simp
    · split
      · simp
      · split
        · simp
        · split
          · next tr e heq =>
              intro hmem
              simp only at hmem
              exact absurd hmem (by
                have := (hno.2 u q s)
                rw [heq] at this
                exact this)
          · next tr sp heq =>
              have hsp := callVoicevoxApi_trace_speaker w cfg text sp
              split
              · next tr2 e heq2 =>
                  intro hmem
                  simp only [List.mem_append] at hmem
                  rcases hmem with hmem | hmem
                  · exact absurd hmem (by
                      have := (hno.2 u q s)
                      rw [heq] at this
                      exact this)
                  · have : s = sp := by
                      have h3 := hsp.2 u q s
                      rw [heq2] at h3
                      exact h3 hmem
                    subst this
                    rw [heq]
              · next tr2 audio heq2 =>
                  intro hmem
                  dsimp only at hmem
                  rw [apply_ite Prod.fst] at hmem
                  simp only [ite_self, List.mem_append] at hmem
                  rcases hmem with (hmem | hmem) | hmem
                  · exact absurd hmem (by
                      have := (hno.2 u q s)
                      rw [heq] at this
                      exact this)
                  · have : s = sp := by
                      have h3 := hsp.2 u q s
                      rw [heq2] at h3
                      exact h3 hmem
                    subst this
                    rw [heq]
                  · simp at hmem
  · intro u t s
    unfold onDecoratingResult
    split
    · simp
    · split
      · simp
      · split
        · simp
        · split
          · simp
          · split
            · simp
            · split
              · simp
              · split
                · next tr e heq =>
                    intro hmem
                    simp only at hmem
                    exact absurd hmem (by
                      have := (hno.1 u t s)
                      rw [heq] at this
                      exact this)
                · next tr sp heq =>
                    split
                    · next tr2 e heq2 =>
                        intro hmem
                        simp only [List.mem_append] at hmem
                        rcases hmem with hmem | hmem
                        · exact absurd hmem (by
                            have := (hno.1 u t s)
                            rw [heq] at this
                            exact this)
                        · have : s = sp :=
                            (api_trace_speaker_of_eq w cfg _ sp _ _ heq2).1
                              u t s hmem
                          subst this
                          rw [heq]
                    · next tr2 audio heq2 =>
                        intro hmem
                        dsimp only at hmem
                        simp only [List.mem_append] at hmem
                        rcases hmem with (hmem | hmem) | hmem
                        · exact absurd hmem (by
                            have := (hno.1 u t s)
                            rw [heq] at this
                            exact this)
                        · have : s = sp :=
                            (api_trace_speaker_of_eq w cfg _ sp _ _ heq2).1
                              u t s hmem
                          subst this
                          rw [heq]
                        · simp at hmem
  · intro u q s
    unfold onDecoratingResult
    split
    · simp
    · split
      · simp
      · split
        · simp
        · split
          · simp
          · split
            · simp
            · split
              · simp
              · split
                · next tr e heq =>
                    intro hmem
                    simp only at hmem
                    exact absurd hmem (by
                      have := (hno.2 u q s)
                      rw [heq] at this
                      exact this)
                · next tr sp heq =>
                    split
                    · next tr2 e heq2 =>
                        intro hmem
                        simp only [List.mem_append] at hmem
                        rcases hmem with hmem | hmem
                        · exact absurd hmem (by
                            have := (hno.2 u q s)
                            rw [heq] at this
                            exact this)
                        · have : s = sp :=
                            (api_trace_speaker_of_eq w cfg _ sp _ _ heq2).2
                              u q s hmem
                          subst this
                          rw [heq]
                    · next tr2 audio heq2 =>
                        intro hmem
                        dsimp only at hmem
                        simp only [List.mem_append] at hmem
                        rcases hmem with (hmem | hmem) | hmem
                        · exact absurd hmem (by
                            have := (hno.2 u q s)
                            rw [heq] at this
                            exact this)
                        · have : s = sp :=
                            (api_trace_speaker_of_eq w cfg _ sp _ _ heq2).2
                              u q s hmem
                          subst this
                          rw [heq]
                        · simp at hmem

/-- Witness for C5 at a concrete world: the query call observed in the gen
trace carries speaker id 3, the id the resolution returned. -/
theorem speaker_resolved_before_synthesis_witness :
    (getSpeakerId wOk cfgOk).2 = .ok 3 :=
  (speaker_resolved_before_synthesis wOk cfgOk "こんにちは" none).1
    "http://localhost:50021" "こんにちは" 3 (by decide)

/-- Fixture configuration with no default voice or style. -/
def cfgBare : Config := { voicevox_url := "http://localhost:50021" }

/-- C9: set_voice and set_style validate the 1-based index before touching
the configuration: the stored default voice (respectively style) is assigned
exactly when 1 ≤ index ≤ length of the speakers list (respectively of the
found speaker's styles); an out-of-range index, a failed speakers fetch, a
missing default voice for set_style, or an unfound voice name each leave the
configuration unchanged and yield an error message. -/
theorem set_commands_atomic (w : World) (cfg : Config) (vi si : Int) :
    (∀ tr e, listSpeakers w cfg = (tr, .error e) →
        (setVoice w cfg vi).1 = cfg ∧
        (setVoice w cfg vi).2 = [.plain msgSetVoiceFailed]) ∧
    (∀ tr speakers, listSpeakers w cfg = (tr, .ok speakers) →
      ((1 ≤ vi ∧ vi ≤ (speakers.length : Int)) →
          (setVoice w cfg vi).1 =
            { cfg with default_voice :=
                (some ((speakers.getD (vi - 1).toNat default).name)) }) ∧
      (¬ (1 ≤ vi ∧ vi ≤ (speakers.length : Int)) →
          (setVoice w cfg vi).1 = cfg ∧
          (setVoice w cfg vi).2 = [.plain msgBadVoiceIndex])) ∧
    (cfg.default_voice = none →
        (setStyle w cfg si).1 = cfg ∧
        (setStyle w cfg si).2 = [.plain msgSetStyleNoVoice]) ∧
    (∀ voiceName, cfg.default_voice = some voiceName →
      (∀ tr e, listSpeakers w cfg = (tr, .error e) →
          (setStyle w cfg si).1 = cfg) ∧
      (∀ tr speakers, listSpeakers w cfg = (tr, .ok speakers) →
        (speakers.find? (fun s => s.name == voiceName) = none →
            (setStyle w cfg si).1 = cfg) ∧
        (∀ speaker,
          speakers.find? (fun s => s.name == voiceName) = some speaker →
          ((1 ≤ si ∧ si ≤ (speaker.styles.length : Int)) →
              (setStyle w cfg si).1 =
                { cfg with default_style :=
                    (some ((speaker.styles.getD (si - 1).toNat
                      default).name)) }) ∧
          (¬ (1 ≤ si ∧ si ≤ (speaker.styles.length : Int)) →
              (setStyle w cfg si).1 = cfg ∧
              (setStyle w cfg si).2 = [.plain msgBadStyleIndex])))) := by
  refine ⟨?_, ?_, ?_, ?_⟩
  · intro tr e hls
    constructor <;> simp [setVoice, hls]
  · intro tr speakers hls
    constructor
    · intro hrange
      simp only [setVoice, hls]
      rw [if_neg (by omega)]
    · intro hrange
      simp only [setVoice, hls]
      rw [if_pos (by omega)]
      exact ⟨rfl, rfl⟩
  · intro hvoice
    constructor <;> simp [setStyle, hvoice]
  · intro voiceName hvoice
    refine ⟨?_, ?_⟩
    · intro tr e hls
      simp [setStyle, hvoice, hls]
    · intro tr speakers hls
      refine ⟨?_, ?_⟩
      · intro hfind
        simp [setStyle, hvoice, hls, hfind]
      · intro speaker hfind
        constructor
        · intro hrange
          simp only [setStyle, hvoice, hls, hfind]
          rw [if_neg (by omega)]
        · intro hrange
          simp only [setStyle, hvoice, hls, hfind]
          rw [if_pos (by omega)]
          exact ⟨rfl, rfl⟩

/-- Witness for C9 at a concrete state: index 2 selects the second speaker
and stores its name as the default voice. -/
theorem set_commands_atomic_witness :
    (setVoice wOk cfgBare 2).1 =
      { cfgBare with default_voice := some "ずんだもん" } :=
  (((set_commands_atomic wOk cfgBare 2 1).2.1)
      [.httpSpeakers "http://localhost:50021"] sampleSpeakers rfl).1
    (by decide)

/-- C10: the decoration hook replaces the whole chain of the result by the
single audio Record exactly when the enable flag (default on) is set, the
result is an LLM result whose components are all Plain, the concatenated
text passes the Japanese and length checks, and the speaker resolution plus
both API calls succeed; in every other case the result is returned completely
unchanged. -/
theorem decoration_replaces_iff (w : World) (cfg : Config)
    (result : Option ResultObj) :
    (∀ res, result = some res → decorationFires w cfg res = true →
        (onDecoratingResult w cfg result).2 =
          some { res with chain := [.record w.tempName] }) ∧
    ((∀ res, result = some res → decorationFires w cfg res = false) →
        (onDecoratingResult w cfg result).2 = result) := by
  constructor
  · intro res hres hfires
    subst hres
    simp only [decorationFires, Bool.and_eq_true] at hfires
    obtain ⟨⟨henable, hllm⟩, hm⟩ := hfires
    cases hc : concatPlain res.chain with
    | none =>
        rw [hc] at hm
        simp at hm
    | some t =>
        rw [hc] at hm
        simp only [Bool.and_eq_true] at hm
        obtain ⟨⟨hj, hl⟩, hpipe⟩ := hm
        rcases hg : getSpeakerId w cfg with ⟨tr, r⟩
        rw [pipelineOk, hg] at hpipe
        cases r with
        | error e => simp at hpipe
        | ok sp =>
            dsimp only at hpipe
            rcases ha : callVoicevoxApi w cfg t sp with ⟨tr2, r2⟩
            rw [ha] at hpipe
            cases r2 with
            | error e => simp at hpipe
            | ok audio =>
                simp [onDecoratingResult, henable, hllm, hc, hj, hl, hg, ha]
  · intro hnofire
    cases result with
    | none =>
        unfold onDecoratingResult
        split
        · rfl
        · rfl
    | some res =>
        have hf := hnofire res rfl
        unfold onDecoratingResult
        split
        · rfl
        · dsimp only
          split
          · rfl
          · split
            · rfl
            · next t heqc =>
                split
                · rfl
                · split
                  · rfl
                  · split
                    · next tr e heq => rfl
                    · next tr sp heq =>
                        split
                        · next tr2 e heq2 => rfl
                        · next tr2 audio heq2 =>
                            exfalso
                            unfold decorationFires at hf
                            rw [heqc] at hf
                            simp [pipelineOk, heq, heq2] at hf
                            simp_all

/-- Witness for C10 at a concrete world: an all-Plain Japanese LLM result is
replaced by the single audio Record. -/
theorem decoration_replaces_iff_witness :
    (onDecoratingResult wOk cfgOk
        (some ⟨[.plain "こんにちは"], true⟩)).2 =
      some ⟨[.record "/tmp/tts.wav"], true⟩ :=
  (decoration_replaces_iff wOk cfgOk
      (some ⟨[.plain "こんにちは"], true⟩)).1
    ⟨[.plain "こんにちは"], true⟩ rfl rfl

/-- Counterexample to C6 as stated: in a fully successful gen-command run the
temp audio file is created and delivered, yet the trace contains an immediate
removal and no scheduled (delayed) removal at all, so deletion after a short
delay does not hold on every delivery path. -/
theorem gen_removal_not_scheduled_counterexample :
    (generateSpeech wOk cfgOk "こんにちは").1 =
      [.httpSpeakers "http://localhost:50021",
       .httpQuery "http://localhost:50021" "こんにちは" 3,
       .httpSynthesis "http://localhost:50021" "accentPhrases" 3,
       .writeTemp "/tmp/tts.wav" [82, 73, 70, 70],
       .removeNow "/tmp/tts.wav"] ∧
    (generateSpeech wOk cfgOk "こんにちは").1.countP
        (fun a => a.isSchedule) = 0 ∧
    (generateSpeech wOk cfgOk "こんにちは").2 =
      [.chainResult [.record "/tmp/tts.wav"]] := by
  refine ⟨?_, ?_, ?_⟩ <;> decide

/-- C6 (amended): only the decoration hook deletes its temp file after a
short delay — on success it schedules removal with a 10 second delay in a
background task whose failure is swallowed, and the hook's behaviour is
independent of whether removal succeeds; the gen command handler instead
removes its temp file immediately after yielding the audio (never scheduling
a delayed removal), a removal failure there being caught by the handler's
exception handler. -/
theorem temp_removal_amended (w : World) (cfg : Config) (text : String)
    (res : ResultObj) :
    (decorationFires w cfg res = true →
        Action.scheduleRemoval w.tempName 10 ∈
          (onDecoratingResult w cfg (some res)).1) ∧
    (∀ g, onDecoratingResult { w with removeOk := g } cfg (some res) =
        onDecoratingResult w cfg (some res)) ∧
    ((generateSpeech w cfg text).1.countP (fun a => a.isSchedule) = 0) ∧
    (genFires w cfg text = true →
        Action.removeNow w.tempName ∈ (generateSpeech w cfg text).1) := by
  refine ⟨?_, ?_, ?_, ?_⟩
  · intro hfires
    simp only [decorationFires, Bool.and_eq_true] at hfires
    obtain ⟨⟨henable, hllm⟩, hm⟩ := hfires
    cases hc : concatPlain res.chain with
    | none =>
        rw [hc] at hm
        simp at hm
    | some t =>
        rw [hc] at hm
        simp only [Bool.and_eq_true] at hm
        obtain ⟨⟨hj, hl⟩, hpipe⟩ := hm
        rcases hg : getSpeakerId w cfg with ⟨tr, r⟩
        rw [pipelineOk, hg] at hpipe
        cases r with
        | error e => simp at hpipe
        | ok sp =>
            dsimp only at hpipe
            rcases ha : callVoicevoxApi w cfg t sp with ⟨tr2, r2⟩
            rw [ha] at hpipe
            cases r2 with
            | error e => simp at hpipe
            | ok audio =>
                simp [onDecoratingResult, henable, hllm, hc, hj, hl, hg, ha]
  · intro g
    obtain ⟨qr, sr, spr, cl, tn, ro⟩ := w
    rfl
  · have htr1 := getSpeakerId_trace w cfg
    unfold generateSpeech
    split
    · simp
    · split
      · simp
      · split
        · simp
        · split
          · next tr e heq =>
              rw [heq] at htr1
              simp only at htr1
              rcases htr1 with h1 | h1 <;> subst h1 <;>
                simp [List.countP_cons, List.countP_nil, Action.isSchedule]
          · next tr sp heq =>
              rw [heq] at htr1
              simp only at htr1
              have htr2 := callVoicevoxApi_trace w cfg text sp
              split
              · next tr2 e heq2 =>
                  rw [heq2] at htr2
                  simp only at htr2
                  rcases htr1 with h1 | h1 <;> subst h1 <;>
                    (rcases htr2 with h2 | ⟨q, h2⟩ <;> subst h2) <;>
                    simp [List.countP_cons, List.countP_nil, Action.isSchedule]
              · next tr2 audio heq2 =>
                  rw [heq2] at htr2
                  simp only at htr2
                  rcases htr1 with h1 | h1 <;> subst h1 <;>
                    (rcases htr2 with h2 | ⟨q, h2⟩ <;> subst h2) <;>
                    (dsimp only
                     split <;>
                      simp [List.countP_cons, List.countP_nil,
                        Action.isSchedule])
  · intro hfires
    simp only [genFires, Bool.and_eq_true] at hfires
    obtain ⟨⟨⟨hne, hj⟩, hl⟩, hpipe⟩ := hfires
    rcases hg : getSpeakerId w cfg with ⟨tr, r⟩
    rw [pipelineOk, hg] at hpipe
    cases r with
    | error e => simp at hpipe
    | ok sp =>
        dsimp only at hpipe
        rcases ha : callVoicevoxApi w cfg text sp with ⟨tr2, r2⟩
        rw [ha] at hpipe
        cases r2 with
        | error e => simp at hpipe
        | ok audio =>
            rw [Bool.not_eq_true'] at hne
            simp [generateSpeech, hne, hj, hl, hg, ha, apply_ite]

/-- Witness for the amended C6 at a concrete world: the decoration hook's
trace contains the scheduled removal with the 10 second delay. -/
theorem temp_removal_amended_witness :
    Action.scheduleRemoval "/tmp/tts.wav" 10 ∈
      (onDecoratingResult wOk cfgOk
        (some ⟨[.plain "こんにちは"], true⟩)).1 :=
  (temp_removal_amended wOk cfgOk "こんにちは"
      ⟨[.plain "こんにちは"], true⟩).1 (by decide)

end Voicevox
